import Mathlib

/-!
Verification of the `forecast` repository's projection engine
(`src/forecast/forecast.py`) against its natural-language specification.

Shallow embedding conventions:
* Python floats are modelled as exact rationals (`ℚ`); the claims under
  study are about exact arithmetic, not floating-point rounding.
* Python float division raises `ZeroDivisionError` on a zero divisor, so
  each function whose body divides is modelled as `Option`-valued: `none`
  is the arithmetic fault, `some x` the normal return.
* The inflation deflator involves a real 12th root, so the final
  (inflation-adjusted) output series live in `ℝ`; everything nominal is
  rational and computable.
* Python's `list.append` is `List.concat`; `xs[-1]` on the (always
  nonempty) running lists is `List.getLastD 0`.
-/

namespace Forecast

/-- Output record of the engine: a label plus the two inflation-adjusted
monthly value series (`ForecastScenario` in `forecast.py`). -/
structure ForecastScenario where
  label : String
  property_values : List ℝ
  investment_values : List ℝ

/-- Input record of the engine (`InvestmentAssumptions` in `forecast.py`).
The optional management fee is `Option ℚ` (Python `None` is `none`). -/
structure InvestmentAssumptions where
  income_surplus : ℚ
  investment_rate : ℚ
  property_valuation : ℚ
  bond_rate : ℚ
  bond_term : ℕ
  monthly_insurance : ℚ
  monthly_taxes : ℚ
  monthly_levies : ℚ
  transfer_duty : ℚ
  lawyer_fees : ℚ
  property_appreciation_rate : ℚ
  deposit : ℚ
  n_years : ℕ
  monthly_rental_income : ℚ
  property_sale_commission_rate : ℚ
  rental_escalation_rate : ℚ
  property_expenses_escalation_rate : ℚ
  inflation_rate : ℚ
  rental_management_percentage_fee : Option ℚ := none
deriving DecidableEq

/-- Monthly repayment for a bond (`calculate_bond_repayment`).  The source
divides by `(1 + r/12) ^ n - 1`; when that divisor is zero Python raises
`ZeroDivisionError`, modelled here as `none`. -/
def calculate_bond_repayment (principal r : ℚ) (n : ℕ) : Option ℚ :=
  let r_monthly := r / 12
  if (1 + r_monthly) ^ n - 1 = 0 then none
  else some (principal * r_monthly * (1 + r_monthly) ^ n / ((1 + r_monthly) ^ n - 1))

/-- Remaining balance of a bond after `n_payments` payments
(`calculate_remaining_bond_balance`).  The source divides by the monthly
rate `rate / 12`; a zero monthly rate raises in Python, modelled as
`none`. -/
def calculate_remaining_bond_balance
    (principal rate : ℚ) (n_payments : ℕ) (monthly_payment_amount : ℚ) : Option ℚ :=
  let monthly_rate := rate / 12
  if monthly_rate = 0 then none
  else some (principal * (1 + monthly_rate) ^ n_payments
    - monthly_payment_amount * ((1 + monthly_rate) ^ n_payments - 1) / monthly_rate)

/-- Net monthly rental income (`_calculate_net_monthly_rental_income`):
if a management fee rate is present, subtract `fee * gross`; otherwise
return the gross amount unchanged. -/
def calculate_net_monthly_rental_income
    (monthly_rental_income : ℚ) (rental_management_percentage_fee : Option ℚ) : ℚ :=
  match rental_management_percentage_fee with
  | some fee => monthly_rental_income - fee * monthly_rental_income
  | none => monthly_rental_income

/-- The loan principal used throughout `forecast_investment_values`:
`assumptions.property_valuation - assumptions.deposit`. -/
def loan_principal (a : InvestmentAssumptions) : ℚ :=
  a.property_valuation - a.deposit

/-- Mutable state of the simulation loop of `forecast_investment_values`:
the four running nominal lists plus the three scalars that the annual
escalation step rewrites.  (The local `net_monthly_rental_income` is only
ever read immediately after being recomputed, inside the recomputation of
`monthly_investment_after_expenses`, so it is not part of the state.) -/
structure EngineState where
  property_valuations : List ℚ
  investment_after_expenses_total_value : List ℚ
  property_total_value : List ℚ
  investment_total_value : List ℚ
  monthly_property_expenses : ℚ
  monthly_rental_income : ℚ
  monthly_investment_after_expenses : ℚ
deriving DecidableEq

/-- One iteration of the loop `for i in range(1, n_months)` of
`forecast_investment_values`, at loop index `i`.  Mirrors the body order:
grow the valuation and cash-accumulator lists, recompute the outstanding
bond balance (a fault there aborts the whole call), append the
property-side total, run the annual escalation block when `i % 12 == 0`,
then append the pure-investment total. -/
def engineIter (a : InvestmentAssumptions) (bond_repayment : ℚ)
    (s : EngineState) (i : ℕ) : Option EngineState :=
  let property_valuation :=
    s.property_valuations.getLastD 0 * (1 + a.property_appreciation_rate / 12)
  let investment_after_expenses_value :=
    s.investment_after_expenses_total_value.getLastD 0 * (1 + a.investment_rate / 12)
      + s.monthly_investment_after_expenses
  match calculate_remaining_bond_balance (loan_principal a) a.bond_rate i bond_repayment with
  | none => none
  | some outstanding_bond_balance =>
    let property_total := (1 - a.property_sale_commission_rate)
      * (property_valuation + investment_after_expenses_value - outstanding_bond_balance)
    let escalated :=
      if i % 12 = 0 then
        let monthly_property_expenses :=
          s.monthly_property_expenses * (1 + a.property_expenses_escalation_rate)
        let monthly_rental_income :=
          s.monthly_rental_income * (1 + a.rental_escalation_rate)
        let net_monthly_rental_income :=
          calculate_net_monthly_rental_income monthly_rental_income
            a.rental_management_percentage_fee
        (monthly_property_expenses, monthly_rental_income,
          a.income_surplus + net_monthly_rental_income - bond_repayment
            - monthly_property_expenses)
      else
        (s.monthly_property_expenses, s.monthly_rental_income,
          s.monthly_investment_after_expenses)
    let investment_in_stocks :=
      s.investment_total_value.getLastD 0 * (1 + a.investment_rate / 12) + a.income_surplus
    some
      { property_valuations := s.property_valuations.concat property_valuation
        investment_after_expenses_total_value :=
          s.investment_after_expenses_total_value.concat investment_after_expenses_value
        property_total_value := s.property_total_value.concat property_total
        investment_total_value := s.investment_total_value.concat investment_in_stocks
        monthly_property_expenses := escalated.1
        monthly_rental_income := escalated.2.1
        monthly_investment_after_expenses := escalated.2.2 }

/-- The loop state after processing iterations `1, 2, ..., t` (Python's
`for i in range(1, n_months)` with `t = n_months - 1`).  A fault in any
iteration aborts the whole call. -/
def engineLoop (a : InvestmentAssumptions) (bond_repayment : ℚ)
    (s0 : EngineState) : ℕ → Option EngineState
  | 0 => some s0
  | t + 1 =>
    match engineLoop a bond_repayment s0 t with
    | none => none
    | some s => engineIter a bond_repayment s (t + 1)

/-- The loop state before the first iteration: the pre-loop setup of
`forecast_investment_values` given the computed `bond_repayment` and the
outstanding balance at zero payments. -/
def initialState (a : InvestmentAssumptions)
    (bond_repayment outstanding_bond_balance : ℚ) : EngineState :=
  let monthly_property_expenses :=
    a.monthly_insurance + a.monthly_taxes + a.monthly_levies
  let property_costs := a.transfer_duty + a.lawyer_fees
  let monthly_rental_income := a.monthly_rental_income
  let net_monthly_rental_income :=
    calculate_net_monthly_rental_income monthly_rental_income
      a.rental_management_percentage_fee
  let monthly_investment_after_expenses :=
    a.income_surplus + net_monthly_rental_income - bond_repayment
      - monthly_property_expenses
  let monthly_investment_in_stocks := a.income_surplus
  { property_valuations := [a.property_valuation]
    investment_after_expenses_total_value := [monthly_investment_after_expenses]
    property_total_value :=
      [(1 - a.property_sale_commission_rate)
        * (a.property_valuation + monthly_investment_after_expenses
            - outstanding_bond_balance)]
    investment_total_value :=
      [monthly_investment_in_stocks + property_costs + a.deposit]
    monthly_property_expenses := monthly_property_expenses
    monthly_rental_income := monthly_rental_income
    monthly_investment_after_expenses := monthly_investment_after_expenses }

/-- The nominal part of `forecast_investment_values`: compute the bond
repayment and the initial outstanding balance (each can fault), then run
the monthly loop.  Returns the final loop state, whose four lists are the
nominal series of the source before inflation adjustment. -/
def forecast_nominal (a : InvestmentAssumptions) : Option EngineState :=
  let n_months := a.n_years * 12
  match calculate_bond_repayment (loan_principal a) a.bond_rate (a.bond_term * 12) with
  | none => none
  | some bond_repayment =>
    match calculate_remaining_bond_balance (loan_principal a) a.bond_rate 0
        bond_repayment with
    | none => none
    | some outstanding_bond_balance =>
      engineLoop a bond_repayment
        (initialState a bond_repayment outstanding_bond_balance) (n_months - 1)

/-- Monthly inflation rate of the source:
`(1 + inflation_rate) ** (1 / 12) - 1`, a real 12th root. -/
noncomputable def monthly_inflation_rate (a : InvestmentAssumptions) : ℝ :=
  (1 + (a.inflation_rate : ℝ)) ^ ((1 : ℝ) / 12) - 1

/-- The inflation-adjustment pass.  In the source each loop iteration `i`
appends `nominal[i] / (1 + monthly_inflation_rate) ** i` to the real
series, where `nominal[i]` is the element just appended to the nominal
list, and index 0 is seeded with the unadjusted nominal value (the factor
at `i = 0` is `1`); so the real series is exactly this index-wise map of
the finished nominal series. -/
noncomputable def deflateSeries (a : InvestmentAssumptions) (xs : List ℚ) : List ℝ :=
  xs.mapIdx (fun (i : ℕ) (x : ℚ) => (x : ℝ) / (1 + monthly_inflation_rate a) ^ i)

/-- The engine `forecast_investment_values`: nominal simulation followed
by the inflation-adjustment pass; `none` models the Python call raising. -/
noncomputable def forecast_investment_values
    (a : InvestmentAssumptions) (label : String) : Option ForecastScenario :=
  match forecast_nominal a with
  | none => none
  | some s =>
    some
      { label := label
        property_values := deflateSeries a s.property_total_value
        investment_values := deflateSeries a s.investment_total_value }

/-- The engine's internal nominal pure-investment series
(`investment_total_value` in the source, before the final inflation
division), when the call does not fault. -/
def nominalInvestmentSeries (a : InvestmentAssumptions) : Option (List ℚ) :=
  (forecast_nominal a).map (fun s => s.investment_total_value)

/-- The input invariants of §3 of the spec: the listed rates and fee are
non-negative, `property_valuation ≥ deposit ≥ 0`, and the two integer
horizons are positive. -/
def ValidAssumptions (a : InvestmentAssumptions) : Prop :=
  0 ≤ a.bond_rate ∧ 0 ≤ a.investment_rate ∧ 0 ≤ a.inflation_rate ∧
    0 ≤ a.rental_escalation_rate ∧ 0 ≤ a.property_expenses_escalation_rate ∧
    0 ≤ a.property_sale_commission_rate ∧
    (∀ fee, a.rental_management_percentage_fee = some fee → 0 ≤ fee) ∧
    a.deposit ≤ a.property_valuation ∧ 0 ≤ a.deposit ∧
    0 < a.n_years ∧ 0 < a.bond_term

/-- The amortization formulas are defined on the record: the bond
repayment computation of the engine's setup does not fault. -/
def AmortizationDefined (a : InvestmentAssumptions) : Prop :=
  (calculate_bond_repayment (loan_principal a) a.bond_rate (a.bond_term * 12)).isSome

/-! Helper lemmas -/

lemma bond_rate_ne_zero_of_repayment {p r : ℚ} {n : ℕ} {m : ℚ}
    (h : calculate_bond_repayment p r n = some m) : r ≠ 0 := by
  intro h0
  rw [h0] at h
  simp [calculate_bond_repayment] at h

lemma remaining_bond_balance_eq (p r : ℚ) (k : ℕ) (m : ℚ) (hr : r ≠ 0) :
    calculate_remaining_bond_balance p r k m =
      some (p * (1 + r / 12) ^ k - m * ((1 + r / 12) ^ k - 1) / (r / 12)) := by
  have h12 : r / 12 ≠ 0 := div_ne_zero hr (by norm_num)
  simp [calculate_remaining_bond_balance, h12]

lemma bond_repayment_eq (p r : ℚ) (n : ℕ) (h : (1 + r / 12) ^ n - 1 ≠ 0) :
    calculate_bond_repayment p r n =
      some (p * (r / 12) * (1 + r / 12) ^ n / ((1 + r / 12) ^ n - 1)) := by
  simp [calculate_bond_repayment, h]

lemma engineIter_some (a : InvestmentAssumptions) (br : ℚ) (s : EngineState) (i : ℕ)
    (hr : a.bond_rate ≠ 0) :
    engineIter a br s i = some
      { property_valuations := s.property_valuations.concat
          (s.property_valuations.getLastD 0 * (1 + a.property_appreciation_rate / 12))
        investment_after_expenses_total_value :=
          s.investment_after_expenses_total_value.concat
            (s.investment_after_expenses_total_value.getLastD 0
                * (1 + a.investment_rate / 12)
              + s.monthly_investment_after_expenses)
        property_total_value := s.property_total_value.concat
          ((1 - a.property_sale_commission_rate)
            * (s.property_valuations.getLastD 0 * (1 + a.property_appreciation_rate / 12)
              + (s.investment_after_expenses_total_value.getLastD 0
                    * (1 + a.investment_rate / 12)
                  + s.monthly_investment_after_expenses)
              - (loan_principal a * (1 + a.bond_rate / 12) ^ i
                  - br * ((1 + a.bond_rate / 12) ^ i - 1) / (a.bond_rate / 12))))
        investment_total_value := s.investment_total_value.concat
          (s.investment_total_value.getLastD 0 * (1 + a.investment_rate / 12)
            + a.income_surplus)
        monthly_property_expenses :=
          if i % 12 = 0 then
            s.monthly_property_expenses * (1 + a.property_expenses_escalation_rate)
          else s.monthly_property_expenses
        monthly_rental_income :=
          if i % 12 = 0 then s.monthly_rental_income * (1 + a.rental_escalation_rate)
          else s.monthly_rental_income
        monthly_investment_after_expenses :=
          if i % 12 = 0 then
            a.income_surplus
              + calculate_net_monthly_rental_income
                  (s.monthly_rental_income * (1 + a.rental_escalation_rate))
                  a.rental_management_percentage_fee
              - br - s.monthly_property_expenses * (1 + a.property_expenses_escalation_rate)
          else s.monthly_investment_after_expenses } := by
  rw [engineIter, remaining_bond_balance_eq (loan_principal a) a.bond_rate i br hr]
  by_cases hi : i % 12 = 0 <;> simp [hi]

lemma engineLoop_spec (a : InvestmentAssumptions) (br : ℚ) (s0 : EngineState)
    (hr : a.bond_rate ≠ 0) (t : ℕ) :
    ∃ s, engineLoop a br s0 t = some s ∧
      s.property_valuations.length = s0.property_valuations.length + t ∧
      s.investment_after_expenses_total_value.length
        = s0.investment_after_expenses_total_value.length + t ∧
      s.property_total_value.length = s0.property_total_value.length + t ∧
      s.investment_total_value.length = s0.investment_total_value.length + t ∧
      s.monthly_property_expenses
        = s0.monthly_property_expenses
            * (1 + a.property_expenses_escalation_rate) ^ (t / 12) ∧
      s.monthly_rental_income
        = s0.monthly_rental_income * (1 + a.rental_escalation_rate) ^ (t / 12) := by
  induction t with
  | zero => exact ⟨s0, rfl, by simp⟩
  | succ t ih =>
    obtain ⟨s, hs, hl1, hl2, hl3, hl4, he, hrent⟩ := ih
    rw [show engineLoop a br s0 (t + 1)
        = match engineLoop a br s0 t with
          | none => none
          | some s => engineIter a br s (t + 1) from rfl, hs]
    dsimp only
    rw [engineIter_some a br s (t + 1) hr]
    refine ⟨_, rfl, ?_, ?_, ?_, ?_, ?_, ?_⟩ <;>
      dsimp only <;> simp only [List.length_concat, hl1, hl2, hl3, hl4, he, hrent]
    · omega
    · omega
    · omega
    · omega
    · by_cases hi : (t + 1) % 12 = 0
      · have hdiv : (t + 1) / 12 = t / 12 + 1 := by omega
        rw [if_pos hi, hdiv, pow_succ]; ring
      · have hdiv : (t + 1) / 12 = t / 12 := by omega
        rw [if_neg hi, hdiv]
    · by_cases hi : (t + 1) % 12 = 0
      · have hdiv : (t + 1) / 12 = t / 12 + 1 := by omega
        rw [if_pos hi, hdiv, pow_succ]; ring
      · have hdiv : (t + 1) / 12 = t / 12 := by omega
        rw [if_neg hi, hdiv]

lemma forecast_nominal_eq (a : InvestmentAssumptions) (br : ℚ)
    (hbr : calculate_bond_repayment (loan_principal a) a.bond_rate (a.bond_term * 12)
      = some br) :
    forecast_nominal a
      = engineLoop a br
          (initialState a br
            (loan_principal a * (1 + a.bond_rate / 12) ^ 0
              - br * ((1 + a.bond_rate / 12) ^ 0 - 1) / (a.bond_rate / 12)))
          (a.n_years * 12 - 1) := by
  have hr : a.bond_rate ≠ 0 := bond_rate_ne_zero_of_repayment hbr
  rw [forecast_nominal, hbr]
  dsimp only
  rw [remaining_bond_balance_eq (loan_principal a) a.bond_rate 0 br hr]

lemma forecast_nominal_spec (a : InvestmentAssumptions)
    (hdef : AmortizationDefined a) (hy : 0 < a.n_years) :
    ∃ s, forecast_nominal a = some s ∧
      s.property_total_value.length = a.n_years * 12 ∧
      s.investment_total_value.length = a.n_years * 12 := by
  obtain ⟨br, hbr⟩ := Option.isSome_iff_exists.mp hdef
  have hr : a.bond_rate ≠ 0 := bond_rate_ne_zero_of_repayment hbr
  rw [forecast_nominal_eq a br hbr]
  obtain ⟨s, hs, -, -, hl3, hl4, -, -⟩ :=
    engineLoop_spec a br
      (initialState a br
        (loan_principal a * (1 + a.bond_rate / 12) ^ 0
          - br * ((1 + a.bond_rate / 12) ^ 0 - 1) / (a.bond_rate / 12)))
      hr (a.n_years * 12 - 1)
  refine ⟨s, hs, ?_, ?_⟩ <;>
    simp only [hl3, hl4, initialState, List.length_cons, List.length_nil] <;> omega

lemma forecast_values_spec (a : InvestmentAssumptions) (label : String)
    (hdef : AmortizationDefined a) (hy : 0 < a.n_years) :
    ∃ s, forecast_investment_values a label = some s ∧
      s.property_values.length = a.n_years * 12 ∧
      s.investment_values.length = a.n_years * 12 := by
  obtain ⟨s, hs, h1, h2⟩ := forecast_nominal_spec a hdef hy
  rw [forecast_investment_values, hs]
  dsimp only
  refine ⟨_, rfl, ?_, ?_⟩ <;> simp only [deflateSeries, List.length_mapIdx, h1, h2]

lemma deflateSeries_congr (a1 a2 : InvestmentAssumptions)
    (h : a1.inflation_rate = a2.inflation_rate) (xs : List ℚ) :
    deflateSeries a1 xs = deflateSeries a2 xs := by
  simp [deflateSeries, monthly_inflation_rate, h]

lemma getLast?_eq_getLastD (l : List ℚ) (h : l ≠ []) :
    l.getLast? = some (l.getLastD 0) := by
  cases l with
  | nil => simp at h
  | cons a as => simp [List.getLastD_eq_getLast?, List.getLast?]

/-! Concrete example records used by the witness theorems.  The bond rate
values are chosen so that the amortization arithmetic stays small and
exactly representable. -/

/-- A small record satisfying the §3 invariants, with zero deposit, a
defined amortization (annual bond rate 12, i.e. monthly rate 1), and all
other rates zero. -/
def exampleAssumptions : InvestmentAssumptions :=
  { income_surplus := 1
    investment_rate := 0
    property_valuation := 4095
    bond_rate := 12
    bond_term := 1
    monthly_insurance := 0
    monthly_taxes := 0
    monthly_levies := 0
    transfer_duty := 0
    lawyer_fees := 0
    property_appreciation_rate := 0
    deposit := 0
    n_years := 1
    monthly_rental_income := 0
    property_sale_commission_rate := 0
    rental_escalation_rate := 0
    property_expenses_escalation_rate := 0
    inflation_rate := 0
    rental_management_percentage_fee := none }

/-- A record agreeing with `exampleAssumptions` exactly on income_surplus,
investment_rate, inflation_rate, transfer_duty, lawyer_fees, deposit and
n_years, and differing on every property-side parameter. -/
def exampleAssumptionsAlt : InvestmentAssumptions :=
  { income_surplus := 1
    investment_rate := 0
    property_valuation := 8190
    bond_rate := 24
    bond_term := 1
    monthly_insurance := 1
    monthly_taxes := 2
    monthly_levies := 3
    transfer_duty := 0
    lawyer_fees := 0
    property_appreciation_rate := 1
    deposit := 0
    n_years := 1
    monthly_rental_income := 7
    property_sale_commission_rate := 1 / 2
    rental_escalation_rate := 1
    property_expenses_escalation_rate := 1
    inflation_rate := 0
    rental_management_percentage_fee := some (1 / 10) }

/-- A record with every rate of claim C7's list held at zero (including
the bond rate) and positive income surplus. -/
def zeroRateAssumptions : InvestmentAssumptions :=
  { income_surplus := 1
    investment_rate := 0
    property_valuation := 100
    bond_rate := 0
    bond_term := 1
    monthly_insurance := 0
    monthly_taxes := 0
    monthly_levies := 0
    transfer_duty := 0
    lawyer_fees := 0
    property_appreciation_rate := 0
    deposit := 0
    n_years := 1
    monthly_rental_income := 0
    property_sale_commission_rate := 0
    rental_escalation_rate := 0
    property_expenses_escalation_rate := 0
    inflation_rate := 0
    rental_management_percentage_fee := none }

/-! Claim theorems -/

/-- C3 (counterexample): at annual rate 0 the remaining-balance formula
divides by the zero monthly rate and faults instead of returning the
principal, so the claim's "for any rate" fails at rate 0. -/
theorem claim3_counterexample :
    calculate_remaining_bond_balance 100 0 0 50 ≠ some 100 := by
  simp [calculate_remaining_bond_balance]

/-- C3 (amended): for every principal, every nonzero annual rate and
every monthly payment amount, `calculate_remaining_bond_balance` at zero
payments made returns exactly the principal. -/
theorem claim3_zero_payments_balance (principal rate m : ℚ) (hr : rate ≠ 0) :
    calculate_remaining_bond_balance principal rate 0 m = some principal := by
  rw [remaining_bond_balance_eq principal rate 0 m hr]
  norm_num

theorem claim3_witness :
    (1 : ℚ) ≠ 0 ∧ calculate_remaining_bond_balance 7 1 0 3 = some 7 :=
  ⟨by norm_num, claim3_zero_payments_balance 7 1 3 (by norm_num)⟩

/-- C4: for every positive principal, positive annual rate and positive
term, the remaining balance after the full term of payments of the
computed fixed repayment is exactly 0 (exact rational arithmetic). -/
theorem claim4_amortization_roundtrip (principal rate : ℚ) (n : ℕ)
    (hp : 0 < principal) (hr : 0 < rate) (hn : 0 < n) :
    ∃ m, calculate_bond_repayment principal rate n = some m ∧
      calculate_remaining_bond_balance principal rate n m = some 0 := by
  have hi : (0 : ℚ) < rate / 12 := by positivity
  have h1 : (1 : ℚ) < 1 + rate / 12 := by linarith
  have hq : (1 : ℚ) < (1 + rate / 12) ^ n := one_lt_pow₀ h1 hn.ne'
  have hq0 : (1 + rate / 12) ^ n - 1 ≠ 0 := sub_ne_zero_of_ne hq.ne'
  rw [bond_repayment_eq principal rate n hq0]
  refine ⟨_, rfl, ?_⟩
  rw [remaining_bond_balance_eq principal rate n _ hr.ne']
  congr 1
  rw [div_mul_cancel₀ _ hq0]
  field_simp
  ring

theorem claim4_witness :
    (0 : ℚ) < 7 ∧ (0 : ℚ) < 12 ∧ 0 < 12 ∧
      ∃ m, calculate_bond_repayment 7 12 12 = some m ∧
        calculate_remaining_bond_balance 7 12 12 m = some 0 :=
  ⟨by norm_num, by norm_num, by norm_num,
    claim4_amortization_roundtrip 7 12 12 (by norm_num) (by norm_num) (by norm_num)⟩

/-- C5: the net-rental adjuster returns the gross amount unchanged when no
fee rate is present, and subtracts fee times gross, i.e. returns
`(1 - fee) * gross`, when one is present. -/
theorem claim5_net_rental_income (x fee : ℚ) :
    calculate_net_monthly_rental_income x none = x ∧
      calculate_net_monthly_rental_income x (some fee) = x - fee * x ∧
      calculate_net_monthly_rental_income x (some fee) = (1 - fee) * x := by
  refine ⟨rfl, rfl, ?_⟩
  simp [calculate_net_monthly_rental_income]
  ring

/-- C6: at annual rate 0 both amortization functions divide by zero and
fault (return `none`): the repayment formula's divisor
`(1 + 0/12) ^ n - 1` is zero for every term, and the remaining-balance
formula divides by the zero monthly rate; neither guards the case. -/
theorem claim6_zero_rate_faults (principal m : ℚ) (n k : ℕ) :
    calculate_bond_repayment principal 0 n = none ∧
      calculate_remaining_bond_balance principal 0 k m = none := by
  constructor <;> norm_num [calculate_bond_repayment, calculate_remaining_bond_balance]

/-- C1: on every assumptions record satisfying the §3 invariants whose
amortization formulas are defined, the engine returns a scenario whose
two output series both have length exactly `n_years * 12`. -/
theorem claim1_output_lengths (a : InvestmentAssumptions) (label : String)
    (hv : ValidAssumptions a) (hdef : AmortizationDefined a) :
    ∃ s, forecast_investment_values a label = some s ∧
      s.property_values.length = a.n_years * 12 ∧
      s.investment_values.length = a.n_years * 12 := by
  obtain ⟨-, -, -, -, -, -, -, -, -, hy, -⟩ := hv
  exact forecast_values_spec a label hdef hy

theorem claim1_witness :
    ValidAssumptions exampleAssumptions ∧ AmortizationDefined exampleAssumptions ∧
      ∃ s, forecast_investment_values exampleAssumptions "baseline" = some s ∧
        s.property_values.length = exampleAssumptions.n_years * 12 ∧
        s.investment_values.length = exampleAssumptions.n_years * 12 := by
  have hv : ValidAssumptions exampleAssumptions := by
    refine ⟨?_, ?_, ?_, ?_, ?_, ?_, ?_, ?_, ?_, ?_, ?_⟩ <;>
      simp [exampleAssumptions]
  have hdef : AmortizationDefined exampleAssumptions := by
    norm_num [AmortizationDefined, calculate_bond_repayment, loan_principal,
      exampleAssumptions]
  exact ⟨hv, hdef, claim1_output_lengths exampleAssumptions "baseline" hv hdef⟩

/-- C2: in a run of the engine whose setup computed bond repayment `br`
and initial outstanding balance `ob`, the internal monthly
property-expense and rental-income levels after processing loop
iterations `1, ..., t` equal their initial values escalated once per
completed multiple of 12 among those indices: they change only when an
index divisible by 12 is processed, stay constant in between, and after
the `m`-th escalation (`m = t / 12`) equal
`(monthly_insurance + monthly_taxes + monthly_levies) * (1 + property_expenses_escalation_rate) ^ m`
and `monthly_rental_income * (1 + rental_escalation_rate) ^ m`. -/
theorem claim2_escalation_levels (a : InvestmentAssumptions) (br ob : ℚ)
    (hbr : calculate_bond_repayment (loan_principal a) a.bond_rate (a.bond_term * 12)
      = some br)
    (t : ℕ) :
    ∃ s, engineLoop a br (initialState a br ob) t = some s ∧
      s.monthly_property_expenses =
        (a.monthly_insurance + a.monthly_taxes + a.monthly_levies)
          * (1 + a.property_expenses_escalation_rate) ^ (t / 12) ∧
      s.monthly_rental_income =
        a.monthly_rental_income * (1 + a.rental_escalation_rate) ^ (t / 12) := by
  have hr : a.bond_rate ≠ 0 := bond_rate_ne_zero_of_repayment hbr
  obtain ⟨s, hs, -, -, -, -, he, hrent⟩ :=
    engineLoop_spec a br (initialState a br ob) hr t
  refine ⟨s, hs, ?_, ?_⟩
  · rw [he]; simp [initialState]
  · rw [hrent]; simp [initialState]

theorem claim2_witness :
    calculate_bond_repayment (loan_principal exampleAssumptions)
        exampleAssumptions.bond_rate (exampleAssumptions.bond_term * 12) = some 4096 ∧
      ∃ s, engineLoop exampleAssumptions 4096
          (initialState exampleAssumptions 4096 4095) 13 = some s ∧
        s.monthly_property_expenses =
          (exampleAssumptions.monthly_insurance + exampleAssumptions.monthly_taxes
              + exampleAssumptions.monthly_levies)
            * (1 + exampleAssumptions.property_expenses_escalation_rate) ^ (13 / 12) ∧
        s.monthly_rental_income =
          exampleAssumptions.monthly_rental_income
            * (1 + exampleAssumptions.rental_escalation_rate) ^ (13 / 12) := by
  have hbr : calculate_bond_repayment (loan_principal exampleAssumptions)
      exampleAssumptions.bond_rate (exampleAssumptions.bond_term * 12) = some 4096 := by
    norm_num [calculate_bond_repayment, loan_principal, exampleAssumptions]
  exact ⟨hbr, claim2_escalation_levels exampleAssumptions 4096 4095 hbr 13⟩

/-- C8 (counterexample): the §3 invariants only require a non-negative
bond rate, and at bond rate 0 the engine's setup call to
`calculate_bond_repayment` divides by zero, so a §3-valid record with
zero deposit can still make `forecast_investment_values` fault: the
claim's "must not fault" fails without a definedness proviso. -/
theorem claim8_counterexample :
    zeroRateAssumptions.deposit = 0 ∧ ValidAssumptions zeroRateAssumptions ∧
      forecast_investment_values zeroRateAssumptions "zero deposit" = none := by
  refine ⟨rfl, ?_, ?_⟩
  · refine ⟨?_, ?_, ?_, ?_, ?_, ?_, ?_, ?_, ?_, ?_, ?_⟩ <;>
      simp [zeroRateAssumptions]
  · have hb : calculate_bond_repayment (loan_principal zeroRateAssumptions)
        zeroRateAssumptions.bond_rate (zeroRateAssumptions.bond_term * 12) = none := by
      norm_num [calculate_bond_repayment, loan_principal, zeroRateAssumptions]
    rw [forecast_investment_values, forecast_nominal, hb]

/-- C8 (amended): with a zero deposit the loan principal used by the
engine is the full property valuation; and on a §3-valid record on which
the amortization formulas are in addition defined (a zero bond rate is
§3-valid but faults the setup), the engine does not fault: it returns
full-length output series. -/
theorem claim8_zero_deposit (a : InvestmentAssumptions) (label : String)
    (hdep : a.deposit = 0) (hv : ValidAssumptions a) (hdef : AmortizationDefined a) :
    loan_principal a = a.property_valuation ∧
      ∃ s, forecast_investment_values a label = some s ∧
        s.property_values.length = a.n_years * 12 ∧
        s.investment_values.length = a.n_years * 12 := by
  obtain ⟨-, -, -, -, -, -, -, -, -, hy, -⟩ := hv
  exact ⟨by rw [loan_principal, hdep, sub_zero], forecast_values_spec a label hdef hy⟩

theorem claim8_witness :
    exampleAssumptions.deposit = 0 ∧ ValidAssumptions exampleAssumptions ∧
      AmortizationDefined exampleAssumptions ∧
      loan_principal exampleAssumptions = exampleAssumptions.property_valuation ∧
      ∃ s, forecast_investment_values exampleAssumptions "zero deposit" = some s ∧
        s.property_values.length = exampleAssumptions.n_years * 12 ∧
        s.investment_values.length = exampleAssumptions.n_years * 12 := by
  have hdep : exampleAssumptions.deposit = 0 := rfl
  have hv : ValidAssumptions exampleAssumptions := by
    refine ⟨?_, ?_, ?_, ?_, ?_, ?_, ?_, ?_, ?_, ?_, ?_⟩ <;>
      simp [exampleAssumptions]
  have hdef : AmortizationDefined exampleAssumptions := by
    norm_num [AmortizationDefined, calculate_bond_repayment, loan_principal,
      exampleAssumptions]
  exact ⟨hdep, hv, hdef, claim8_zero_deposit exampleAssumptions "zero deposit" hdep hv hdef⟩

lemma engineLoop_itv_congr (a1 a2 : InvestmentAssumptions) (br1 br2 : ℚ)
    (s1 s2 : EngineState)
    (hr1 : a1.bond_rate ≠ 0) (hr2 : a2.bond_rate ≠ 0)
    (hsur : a1.income_surplus = a2.income_surplus)
    (hinv : a1.investment_rate = a2.investment_rate)
    (hitv : s1.investment_total_value = s2.investment_total_value)
    (t : ℕ) :
    ∃ u1 u2, engineLoop a1 br1 s1 t = some u1 ∧ engineLoop a2 br2 s2 t = some u2 ∧
      u1.investment_total_value = u2.investment_total_value := by
  induction t with
  | zero => exact ⟨s1, s2, rfl, rfl, hitv⟩
  | succ t ih =>
    obtain ⟨u1, u2, h1, h2, hu⟩ := ih
    rw [show engineLoop a1 br1 s1 (t + 1)
        = match engineLoop a1 br1 s1 t with
          | none => none
          | some s => engineIter a1 br1 s (t + 1) from rfl, h1]
    rw [show engineLoop a2 br2 s2 (t + 1)
        = match engineLoop a2 br2 s2 t with
          | none => none
          | some s => engineIter a2 br2 s (t + 1) from rfl, h2]
    dsimp only
    rw [engineIter_some a1 br1 u1 (t + 1) hr1, engineIter_some a2 br2 u2 (t + 1) hr2]
    refine ⟨_, _, rfl, rfl, ?_⟩
    dsimp only
    rw [hu, hsur, hinv]

/-- C9: two records that agree on income_surplus, investment_rate,
inflation_rate, transfer_duty, lawyer_fees, deposit and n_years, and on
which the amortization setup is defined, yield identical
`investment_values` series: the pure-investment output is independent of
every property-side parameter. -/
theorem claim9_noninterference (a1 a2 : InvestmentAssumptions) (label1 label2 : String)
    (hsur : a1.income_surplus = a2.income_surplus)
    (hinv : a1.investment_rate = a2.investment_rate)
    (hinfl : a1.inflation_rate = a2.inflation_rate)
    (hduty : a1.transfer_duty = a2.transfer_duty)
    (hlaw : a1.lawyer_fees = a2.lawyer_fees)
    (hdep : a1.deposit = a2.deposit)
    (hyears : a1.n_years = a2.n_years)
    (hd1 : AmortizationDefined a1) (hd2 : AmortizationDefined a2) :
    ∃ s1 s2, forecast_investment_values a1 label1 = some s1 ∧
      forecast_investment_values a2 label2 = some s2 ∧
      s1.investment_values = s2.investment_values := by
  obtain ⟨br1, hbr1⟩ := Option.isSome_iff_exists.mp hd1
  obtain ⟨br2, hbr2⟩ := Option.isSome_iff_exists.mp hd2
  have hr1 : a1.bond_rate ≠ 0 := bond_rate_ne_zero_of_repayment hbr1
  have hr2 : a2.bond_rate ≠ 0 := bond_rate_ne_zero_of_repayment hbr2
  obtain ⟨u1, u2, h1, h2, hu⟩ :=
    engineLoop_itv_congr a1 a2 br1 br2
      (initialState a1 br1
        (loan_principal a1 * (1 + a1.bond_rate / 12) ^ 0
          - br1 * ((1 + a1.bond_rate / 12) ^ 0 - 1) / (a1.bond_rate / 12)))
      (initialState a2 br2
        (loan_principal a2 * (1 + a2.bond_rate / 12) ^ 0
          - br2 * ((1 + a2.bond_rate / 12) ^ 0 - 1) / (a2.bond_rate / 12)))
      hr1 hr2 hsur hinv
      (by simp [initialState, hsur, hduty, hlaw, hdep])
      (a1.n_years * 12 - 1)
  rw [hyears] at h2
  rw [forecast_investment_values, forecast_nominal_eq a1 br1 hbr1, h1]
  dsimp only
  rw [forecast_investment_values, forecast_nominal_eq a2 br2 hbr2, h2]
  dsimp only
  refine ⟨_, _, rfl, rfl, ?_⟩
  dsimp only
  rw [hu, deflateSeries_congr a1 a2 hinfl]

theorem claim9_witness :
    exampleAssumptions.income_surplus = exampleAssumptionsAlt.income_surplus ∧
      exampleAssumptions.investment_rate = exampleAssumptionsAlt.investment_rate ∧
      exampleAssumptions.inflation_rate = exampleAssumptionsAlt.inflation_rate ∧
      exampleAssumptions.transfer_duty = exampleAssumptionsAlt.transfer_duty ∧
      exampleAssumptions.lawyer_fees = exampleAssumptionsAlt.lawyer_fees ∧
      exampleAssumptions.deposit = exampleAssumptionsAlt.deposit ∧
      exampleAssumptions.n_years = exampleAssumptionsAlt.n_years ∧
      AmortizationDefined exampleAssumptions ∧
      AmortizationDefined exampleAssumptionsAlt ∧
      ∃ s1 s2, forecast_investment_values exampleAssumptions "base" = some s1 ∧
        forecast_investment_values exampleAssumptionsAlt "alt" = some s2 ∧
        s1.investment_values = s2.investment_values := by
  have hd1 : AmortizationDefined exampleAssumptions := by
    norm_num [AmortizationDefined, calculate_bond_repayment, loan_principal,
      exampleAssumptions]
  have hd2 : AmortizationDefined exampleAssumptionsAlt := by
    norm_num [AmortizationDefined, calculate_bond_repayment, loan_principal,
      exampleAssumptionsAlt]
  exact ⟨rfl, rfl, rfl, rfl, rfl, rfl, rfl, hd1, hd2,
    claim9_noninterference exampleAssumptions exampleAssumptionsAlt "base" "alt"
      rfl rfl rfl rfl rfl rfl rfl hd1 hd2⟩

/-- C10: in an iteration `i` with `i % 12 = 0` (and a nonzero bond rate,
so the balance computation succeeds), the values appended to the
property-side cash accumulator and to the property-side total at month
`i` are computed from the pre-escalation
`monthly_investment_after_expenses`; the post-iteration state carries the
re-computed (escalated) value, and the next iteration `i + 1` deposits
exactly that escalated value into the accumulator. -/
theorem claim10_escalation_timing (a : InvestmentAssumptions) (br : ℚ)
    (s : EngineState) (i : ℕ) (hi : i % 12 = 0) (hr : a.bond_rate ≠ 0) :
    ∃ s', engineIter a br s i = some s' ∧
      s'.investment_after_expenses_total_value =
        s.investment_after_expenses_total_value.concat
          (s.investment_after_expenses_total_value.getLastD 0
              * (1 + a.investment_rate / 12)
            + s.monthly_investment_after_expenses) ∧
      s'.property_total_value =
        s.property_total_value.concat
          ((1 - a.property_sale_commission_rate)
            * (s.property_valuations.getLastD 0 * (1 + a.property_appreciation_rate / 12)
              + (s.investment_after_expenses_total_value.getLastD 0
                    * (1 + a.investment_rate / 12)
                  + s.monthly_investment_after_expenses)
              - (loan_principal a * (1 + a.bond_rate / 12) ^ i
                  - br * ((1 + a.bond_rate / 12) ^ i - 1) / (a.bond_rate / 12)))) ∧
      s'.monthly_investment_after_expenses =
        a.income_surplus
          + calculate_net_monthly_rental_income
              (s.monthly_rental_income * (1 + a.rental_escalation_rate))
              a.rental_management_percentage_fee
          - br - s.monthly_property_expenses * (1 + a.property_expenses_escalation_rate) ∧
      (∀ s'', engineIter a br s' (i + 1) = some s'' →
        s''.investment_after_expenses_total_value =
          s'.investment_after_expenses_total_value.concat
            (s'.investment_after_expenses_total_value.getLastD 0
                * (1 + a.investment_rate / 12)
              + s'.monthly_investment_after_expenses)) := by
  rw [engineIter_some a br s i hr]
  refine ⟨_, rfl, rfl, rfl, by dsimp only; rw [if_pos hi], ?_⟩
  intro s'' h
  rw [engineIter_some a br _ (i + 1) hr] at h
  obtain rfl := Option.some.injEq _ _ ▸ h.symm
  rfl

theorem claim10_witness :
    12 % 12 = 0 ∧ exampleAssumptions.bond_rate ≠ 0 ∧
      ∃ s', engineIter exampleAssumptions 4096 (initialState exampleAssumptions 4096 4095)
          12 = some s' ∧
        s'.investment_after_expenses_total_value =
          (initialState exampleAssumptions 4096 4095).investment_after_expenses_total_value.concat
            ((initialState exampleAssumptions 4096
                  4095).investment_after_expenses_total_value.getLastD 0
                * (1 + exampleAssumptions.investment_rate / 12)
              + (initialState exampleAssumptions 4096
                  4095).monthly_investment_after_expenses) ∧
        s'.property_total_value =
          (initialState exampleAssumptions 4096 4095).property_total_value.concat
            ((1 - exampleAssumptions.property_sale_commission_rate)
              * ((initialState exampleAssumptions 4096 4095).property_valuations.getLastD 0
                    * (1 + exampleAssumptions.property_appreciation_rate / 12)
                + ((initialState exampleAssumptions 4096
                        4095).investment_after_expenses_total_value.getLastD 0
                      * (1 + exampleAssumptions.investment_rate / 12)
                    + (initialState exampleAssumptions 4096
                        4095).monthly_investment_after_expenses)
                - (loan_principal exampleAssumptions
                      * (1 + exampleAssumptions.bond_rate / 12) ^ 12
                    - 4096 * ((1 + exampleAssumptions.bond_rate / 12) ^ 12 - 1)
                        / (exampleAssumptions.bond_rate / 12)))) ∧
        s'.monthly_investment_after_expenses =
          exampleAssumptions.income_surplus
            + calculate_net_monthly_rental_income
                ((initialState exampleAssumptions 4096 4095).monthly_rental_income
                  * (1 + exampleAssumptions.rental_escalation_rate))
                exampleAssumptions.rental_management_percentage_fee
            - 4096 - (initialState exampleAssumptions 4096 4095).monthly_property_expenses
                * (1 + exampleAssumptions.property_expenses_escalation_rate) ∧
        (∀ s'', engineIter exampleAssumptions 4096 s' (12 + 1) = some s'' →
          s''.investment_after_expenses_total_value =
            s'.investment_after_expenses_total_value.concat
              (s'.investment_after_expenses_total_value.getLastD 0
                  * (1 + exampleAssumptions.investment_rate / 12)
                + s'.monthly_investment_after_expenses)) := by
  refine ⟨by norm_num, by norm_num [exampleAssumptions], ?_⟩
  exact claim10_escalation_timing exampleAssumptions 4096
    (initialState exampleAssumptions 4096 4095) 12 (by norm_num)
    (by norm_num [exampleAssumptions])

lemma engineLoop_itv_chain (a : InvestmentAssumptions) (br : ℚ) (s0 : EngineState)
    (hr : a.bond_rate ≠ 0) (hinv : a.investment_rate = 0)
    (hsur : 0 ≤ a.income_surplus)
    (h0 : s0.investment_total_value ≠ [])
    (hc : s0.investment_total_value.Chain' (· ≤ ·)) (t : ℕ) :
    ∃ s, engineLoop a br s0 t = some s ∧ s.investment_total_value ≠ [] ∧
      s.investment_total_value.Chain' (· ≤ ·) := by
  induction t with
  | zero => exact ⟨s0, rfl, h0, hc⟩
  | succ t ih =>
    obtain ⟨s, hs, hne, hchain⟩ := ih
    rw [show engineLoop a br s0 (t + 1)
        = match engineLoop a br s0 t with
          | none => none
          | some s => engineIter a br s (t + 1) from rfl, hs]
    dsimp only
    rw [engineIter_some a br s (t + 1) hr]
    refine ⟨_, rfl, ?_, ?_⟩ <;> dsimp only <;> rw [List.concat_eq_append]
    · simp
    · rw [List.chain'_append]
      refine ⟨hchain, List.chain'_singleton _, ?_⟩
      intro x hx y hy
      rw [getLast?_eq_getLastD _ hne, Option.mem_def, Option.some.injEq] at hx
      simp only [List.head?_cons, Option.mem_def, Option.some.injEq] at hy
      subst hx
      subst hy
      rw [hinv]
      norm_num
      exact hsur

/-- C7 (counterexample): on a record with every rate of the claim's list
held at zero, including the bond rate, and positive income surplus, the
engine faults in the amortization setup before any series is built, so no
nominal pure-investment series exists at all. -/
theorem claim7_counterexample :
    zeroRateAssumptions.bond_rate = 0 ∧ zeroRateAssumptions.investment_rate = 0 ∧
      zeroRateAssumptions.inflation_rate = 0 ∧
      zeroRateAssumptions.property_appreciation_rate = 0 ∧
      zeroRateAssumptions.rental_escalation_rate = 0 ∧
      zeroRateAssumptions.property_expenses_escalation_rate = 0 ∧
      zeroRateAssumptions.property_sale_commission_rate = 0 ∧
      zeroRateAssumptions.rental_management_percentage_fee = none ∧
      0 < zeroRateAssumptions.income_surplus ∧
      ¬ ∃ l, nominalInvestmentSeries zeroRateAssumptions = some l ∧
        l.Chain' (· ≤ ·) := by
  refine ⟨rfl, rfl, rfl, rfl, rfl, rfl, rfl, rfl, by norm_num [zeroRateAssumptions], ?_⟩
  rintro ⟨l, hl, -⟩
  have h : nominalInvestmentSeries zeroRateAssumptions = none := by
    have hb : calculate_bond_repayment (loan_principal zeroRateAssumptions)
        zeroRateAssumptions.bond_rate (zeroRateAssumptions.bond_term * 12) = none := by
      norm_num [calculate_bond_repayment, loan_principal, zeroRateAssumptions]
    rw [nominalInvestmentSeries, forecast_nominal, hb]
    rfl
  rw [h] at hl
  exact Option.noConfusion hl

/-- C7 (amended): on a record whose investment, inflation, appreciation,
escalation and commission rates and management fee are all zero or
absent, whose income surplus is positive, and whose bond rate is one on
which the amortization setup is defined (a zero bond rate faults before
any series exists), the engine's nominal pure-investment series exists
and is non-decreasing month over month. -/
theorem claim7_nominal_monotone (a : InvestmentAssumptions)
    (hinv : a.investment_rate = 0) (hinfl : a.inflation_rate = 0)
    (happ : a.property_appreciation_rate = 0)
    (hresc : a.rental_escalation_rate = 0)
    (hpesc : a.property_expenses_escalation_rate = 0)
    (hcomm : a.property_sale_commission_rate = 0)
    (hfee : a.rental_management_percentage_fee = none)
    (hsur : 0 < a.income_surplus)
    (hdef : AmortizationDefined a) :
    ∃ l, nominalInvestmentSeries a = some l ∧ l.Chain' (· ≤ ·) := by
  obtain ⟨br, hbr⟩ := Option.isSome_iff_exists.mp hdef
  have hr : a.bond_rate ≠ 0 := bond_rate_ne_zero_of_repayment hbr
  obtain ⟨s, hs, -, hchain⟩ :=
    engineLoop_itv_chain a br
      (initialState a br
        (loan_principal a * (1 + a.bond_rate / 12) ^ 0
          - br * ((1 + a.bond_rate / 12) ^ 0 - 1) / (a.bond_rate / 12)))
      hr hinv hsur.le (by simp [initialState]) (by simp [initialState])
      (a.n_years * 12 - 1)
  rw [nominalInvestmentSeries, forecast_nominal_eq a br hbr, hs]
  exact ⟨_, rfl, hchain⟩

theorem claim7_witness :
    exampleAssumptions.investment_rate = 0 ∧ exampleAssumptions.inflation_rate = 0 ∧
      exampleAssumptions.property_appreciation_rate = 0 ∧
      exampleAssumptions.rental_escalation_rate = 0 ∧
      exampleAssumptions.property_expenses_escalation_rate = 0 ∧
      exampleAssumptions.property_sale_commission_rate = 0 ∧
      exampleAssumptions.rental_management_percentage_fee = none ∧
      0 < exampleAssumptions.income_surplus ∧
      AmortizationDefined exampleAssumptions ∧
      ∃ l, nominalInvestmentSeries exampleAssumptions = some l ∧
        l.Chain' (· ≤ ·) := by
  have hdef : AmortizationDefined exampleAssumptions := by
    norm_num [AmortizationDefined, calculate_bond_repayment, loan_principal,
      exampleAssumptions]
  exact ⟨rfl, rfl, rfl, rfl, rfl, rfl, rfl, by norm_num [exampleAssumptions], hdef,
    claim7_nominal_monotone exampleAssumptions rfl rfl rfl rfl rfl rfl rfl
      (by norm_num [exampleAssumptions]) hdef⟩

end Forecast
